import Mathlib

/-!
Shallow embedding of scripts/customer_patronage_forecast.py.

The script is a linear pipeline: load a CSV transaction table, derive the
ISO week of each row, count distinct customers per week, test stationarity
with an augmented Dickey-Fuller test, plot ACF and PACF, fit an
ARIMA(1, 1, 1) model on all but the last four weekly counts, forecast the
held-out four weeks, and print a MAPE score.

External library calls (pandas isocalendar, statsmodels adfuller and ARIMA)
are modelled as abstract function parameters; everything the script itself
computes (grouping, differencing, slicing, control flow across exception
handlers, the sklearn MAPE formula) is embedded as executable definitions.
-/

namespace CustomerPatronageForecast

/-- A date value as stored in the InvoiceDate column; the library function
that extracts the ISO week from it is passed in abstractly. -/
abbrev Date := Nat

/-- A customer identifier from the CustomerID column. -/
abbrev CustomerID := Int

/-- One row of the loaded dataframe: the two columns the script reads, plus
whatever other columns the CSV happens to contain, of arbitrary type. -/
structure Row (α : Type) where
  invoiceDate : Date
  customerId : CustomerID
  other : α

/-- The projection of a row onto the two columns the script uses. -/
def proj {α : Type} (r : Row α) : Date × CustomerID :=
  (r.invoiceDate, r.customerId)

/-- Line 32: df.InvoiceWeek = df.InvoiceDate.dt.isocalendar().week, then the
column selection of line 40 keeps only InvoiceWeek and CustomerID. -/
def weekColumn {α : Type} (isoWeek : Date → Nat) (rows : List (Row α)) :
    List (Nat × CustomerID) :=
  rows.map (fun r => (isoWeek r.invoiceDate, r.customerId))

/-- The group keys of pandas groupby: the distinct key values in ascending
order. -/
def groupKeys (pairs : List (Nat × CustomerID)) : List Nat :=
  ((pairs.map Prod.fst).insertionSort (· ≤ ·)).dedup

/-- The CustomerID sub-column of the group with key w. -/
def groupValues (pairs : List (Nat × CustomerID)) (w : Nat) : List CustomerID :=
  (pairs.filter (fun p => p.1 == w)).map Prod.snd

/-- pandas Series.nunique: the number of distinct values. -/
def nunique (xs : List CustomerID) : Nat :=
  xs.dedup.length

/-- Lines 40-41: patronage_weekly =
df.groupby(InvoiceWeek)[CustomerID].nunique(), as the ordered list of
per-week distinct-customer counts. -/
def patronage_weekly {α : Type} (isoWeek : Date → Nat) (rows : List (Row α)) :
    List Int :=
  (groupKeys (weekColumn isoWeek rows)).map
    (fun w => (nunique (groupValues (weekColumn isoWeek rows) w) : Int))

/-- pandas Series.diff().dropna(): consecutive differences, first NaN entry
dropped. -/
def diff_dropna (xs : List Int) : List Int :=
  (xs.zip xs.tail).map (fun p => p.2 - p.1)

/-- The augmented Dickey-Fuller test of statsmodels, abstracted to the
p-value it returns.  The script calls it once with autolag=AIC (line 49) and
once with default arguments (line 57), so the two variants are separate
fields. -/
structure ADF where
  pvalAutolagAIC : List Int → ℚ
  pval : List Int → ℚ

/-- Result of the stationarity stage: the differencing order d it chose and
the (possibly differenced) series data_diff. -/
structure StationarityOut where
  d : Nat
  data_diff : List Int
deriving DecidableEq, Repr

/-- Lines 48-62: the stationarity check.  If the first ADF p-value is at
most 0.05 the series is kept with d = 0; otherwise data_diff is the first
difference with d = 1, and if the second ADF p-value also exceeds 0.05 the
script only sets d = 2 without differencing again. -/
def stationarityCheck (adf : ADF) (pw : List Int) : StationarityOut :=
  if adf.pvalAutolagAIC pw ≤ 1 / 20 then
    ⟨0, pw⟩
  else
    if adf.pval (diff_dropna pw) ≤ 1 / 20 then ⟨1, diff_dropna pw⟩
    else ⟨2, diff_dropna pw⟩

/-- Line 70: the series handed to plot_acf is data_diff. -/
def acfPlotInput (adf : ADF) (pw : List Int) : List Int :=
  (stationarityCheck adf pw).data_diff

/-- Line 72: the series handed to plot_pacf is data_diff. -/
def pacfPlotInput (adf : ADF) (pw : List Int) : List Int :=
  (stationarityCheck adf pw).data_diff

/-- Line 78: p, d, q = 1, 1, 1, overwriting the d chosen by the
stationarity stage. -/
def arimaOrder : Nat × Nat × Nat := (1, 1, 1)

/-- Line 82: train_data = patronage_weekly[:-4].  Python slicing clamps, so
for series shorter than four entries this is the empty list. -/
def train_data (pw : List Int) : List Int :=
  pw.take (pw.length - 4)

/-- Line 83: test_data = patronage_weekly[-4:], the last four weekly counts
(the whole series when it is shorter than four entries). -/
def test_data (pw : List Int) : List Int :=
  pw.drop (pw.length - 4)

/-- The arguments of the ARIMA constructor call of line 90. -/
structure FitCall where
  endog : List Int
  order : Nat × Nat × Nat
deriving DecidableEq, Repr

/-- Line 90: ARIMA(train_data, order=(p, d, q)). -/
def fitCall (pw : List Int) : FitCall :=
  ⟨train_data pw, arimaOrder⟩

/-- Line 105: the steps argument of results.get_forecast is
len(test_data). -/
def forecastSteps (pw : List Int) : Nat :=
  (test_data pw).length

/-- What the statsmodels forecast object yields: the predicted means
(line 106) and the confidence intervals (line 107). -/
structure ForecastResult where
  predicted_mean : List ℚ
  conf_int : List (ℚ × ℚ)
deriving DecidableEq

/-- The statsmodels ARIMA library, abstracted to the function from the
training series, the order, and the number of forecast steps to the
forecast it produces. -/
structure ArimaLib where
  fitForecast : List Int → Nat × Nat × Nat → Nat → ForecastResult

/-- Lines 90, 105-107: the forecast the fitted model produces for the
held-out weeks. -/
def scriptForecast (lib : ArimaLib) (pw : List Int) : ForecastResult :=
  lib.fitForecast (train_data pw) arimaOrder (forecastSteps pw)

/-- Line 106: forecast_values = forecast.predicted_mean. -/
def forecast_values (lib : ArimaLib) (pw : List Int) : List ℚ :=
  (scriptForecast lib pw).predicted_mean

/-- np.finfo(np.float64).eps, the clamp used by sklearn inside MAPE. -/
def sklearnEps : ℚ := 1 / 2 ^ 52

/-- sklearn.metrics.mean_absolute_percentage_error: the mean of
abs(y - yhat) / max(eps, abs(y)). -/
def mean_absolute_percentage_error (yTrue yPred : List ℚ) : ℚ :=
  (((yTrue.zip yPred).map (fun p => |p.1 - p.2| / max sklearnEps |p.1|)).sum)
    / (yTrue.length : ℚ)

/-- Line 138: the MAPE the script prints, computed from test_data and
forecast_values. -/
def mapeOutput (lib : ArimaLib) (pw : List Int) : ℚ :=
  mean_absolute_percentage_error ((test_data pw).map (fun z => (z : ℚ)))
    (forecast_values lib pw)

/-- An observable output of the script on the fully successful path: a
savefig call or the printed MAPE line. -/
inductive Event where
  | savefig (path : String)
  | printMape (v : ℚ)
deriving DecidableEq

/-- Whether an event is a savefig call. -/
def Event.isSavefig : Event → Bool
  | .savefig _ => true
  | .printMape _ => false

/-- The outputs of the script when no stage raises: the four savefig calls
of lines 71, 73, 99 and 132, then the MAPE print of line 139. -/
def scriptEvents {α : Type} (isoWeek : Date → Nat) (lib : ArimaLib)
    (rows : List (Row α)) : List Event :=
  let pw := patronage_weekly isoWeek rows
  [ Event.savefig "../figures/customer-patronage-forecast/cpf-acf-parameter-plot.jpg",
    Event.savefig "../figures/customer-patronage-forecast/cpf-pacf-parameter-plot.jpg",
    Event.savefig "../figures/customer-patronage-forecast/cpf-diagnostic-plot.jpg",
    Event.savefig "../figures/customer-patronage-forecast/customer-patronage-forecast.jpg",
    Event.printMape (mapeOutput lib pw) ]

/-! ### Control flow across the exception handlers

Each try block of the script is one stage.  The load handler (lines 19-27)
catches only FileNotFoundError, EmptyDataError and ParserError and sets df
to None; the week-extraction, grouping and stationarity handlers catch any
exception and set df to None; every later handler catches any exception and
only logs.  The guards at lines 29, 37, 46, 67, 87, 95 and 111 all test
df is not None, and no stage after the stationarity check ever assigns df,
so the last seven stages either all run or all are skipped. -/

/-- The eleven try blocks of the script, in source order. -/
inductive Stage where
  | load | weekExtract | grouping | stationarity | acfPacf | split
  | fit | diagnostics | forecast | forecastPlot | mapeStage
deriving DecidableEq, Fintype, Repr

/-- Position of a stage in source order. -/
def Stage.idx : Stage → Nat
  | .load => 0
  | .weekExtract => 1
  | .grouping => 2
  | .stationarity => 3
  | .acfPacf => 4
  | .split => 5
  | .fit => 6
  | .diagnostics => 7
  | .forecast => 8
  | .forecastPlot => 9
  | .mapeStage => 10

/-- How the load try block (lines 16-18) ends: success, one of the three
exception types its handlers name, or any other exception (for example the
KeyError of a missing InvoiceDate column), which no handler catches. -/
inductive LoadOutcome where
  | ok | fileNotFound | emptyData | parserError | otherExc
deriving DecidableEq, Fintype, Repr

/-- One run of the script, abstracted to which stages raise an exception:
the outcome of the load block and, for each later stage, whether its try
block raises. -/
structure Raises where
  loadOutcome : LoadOutcome
  raisesAt : Stage → Bool

/-- Whether a stage raises an exception on this run. -/
def stageRaises (r : Raises) : Stage → Bool
  | .load => r.loadOutcome != .ok
  | s => r.raisesAt s

/-- Whether the stage's handler catches the exception when one is raised:
always, except that the load handlers name only the three pandas errors. -/
def caughtByHandler (r : Raises) : Stage → Bool
  | .load => r.loadOutcome != .otherExc
  | _ => true

/-- Whether the stage's exception handler assigns df = None (lines 21, 24,
27, 35, 44 and 65); an uncaught load exception likewise prevents every
later stage from running. -/
def setsDfNone : Stage → Bool
  | .load | .weekExtract | .grouping | .stationarity => true
  | _ => false

/-- Whether the stage's try block is entered on this run, following the
df-is-not-None guards of lines 29, 37, 46, 67, 87, 95 and 111. -/
def attempted (r : Raises) : Stage → Bool
  | .load => true
  | .weekExtract => r.loadOutcome == .ok
  | .grouping => r.loadOutcome == .ok && !r.raisesAt .weekExtract
  | .stationarity =>
      r.loadOutcome == .ok && !r.raisesAt .weekExtract && !r.raisesAt .grouping
  | _ =>
      r.loadOutcome == .ok && !r.raisesAt .weekExtract &&
        !r.raisesAt .grouping && !r.raisesAt .stationarity

/-- Whether the stage logs an error message on this run: it ran, raised,
and its handler caught the exception. -/
def logged (r : Raises) (s : Stage) : Bool :=
  attempted r s && stageRaises r s && caughtByHandler r s

/-! ### Claim-level definitions used by counterexamples -/

/-- The statement of the claim that, when both ADF p-values exceed 0.05,
the stationarity stage applies second-order differencing, so that its
data_diff is the twice-differenced series. -/
def SecondDifferencingApplied (adf : ADF) (pw : List Int) : Prop :=
  ¬ adf.pvalAutolagAIC pw ≤ 1 / 20 → ¬ adf.pval (diff_dropna pw) ≤ 1 / 20 →
    (stationarityCheck adf pw).data_diff = diff_dropna (diff_dropna pw)

/-- An ADF oracle that reports p-value 1 on every series. -/
def adfAlwaysNonStationary : ADF :=
  ⟨fun _ => 1, fun _ => 1⟩

/-- An ADF oracle that reports p-value 0 on every series. -/
def adfAlwaysStationary : ADF :=
  ⟨fun _ => 0, fun _ => 0⟩

/-- An ARIMA library oracle that forecasts zero with a zero-width interval
at every step. -/
def zeroArima : ArimaLib :=
  ⟨fun _ _ n => ⟨List.replicate n 0, List.replicate n (0, 0)⟩⟩

/-- The statement of the claim that at every stage any raised exception is
caught, a message is logged, and all remaining stages are skipped. -/
def CatchLogSkipEverywhere (r : Raises) : Prop :=
  ∀ s : Stage, attempted r s = true → stageRaises r s = true →
    logged r s = true ∧
      ∀ t : Stage, s.idx < t.idx → attempted r t = false

/-- A run on which loading succeeds and only the model-fitting stage
raises. -/
def fitOnlyRaises : Raises :=
  ⟨LoadOutcome.ok, fun s => s == Stage.fit⟩

/-- A run on which loading succeeds and only the grouping stage raises. -/
def groupingOnlyRaises : Raises :=
  ⟨LoadOutcome.ok, fun s => s == Stage.grouping⟩

/-! ### Helper lemmas about the stationarity stage -/

/-- Unfolding the stationarity check on its stationary branch. -/
theorem stationarityCheck_of_le (adf : ADF) (pw : List Int)
    (h : adf.pvalAutolagAIC pw ≤ 1 / 20) :
    stationarityCheck adf pw = ⟨0, pw⟩ := by
  unfold stationarityCheck
  rw [if_pos h]

/-- Unfolding the stationarity check when only the first test reports
non-stationarity. -/
theorem stationarityCheck_of_diff_le (adf : ADF) (pw : List Int)
    (h1 : ¬ adf.pvalAutolagAIC pw ≤ 1 / 20)
    (h2 : adf.pval (diff_dropna pw) ≤ 1 / 20) :
    stationarityCheck adf pw = ⟨1, diff_dropna pw⟩ := by
  unfold stationarityCheck
  rw [if_neg h1, if_pos h2]

/-- Unfolding the stationarity check when both tests report
non-stationarity. -/
theorem stationarityCheck_of_not_le (adf : ADF) (pw : List Int)
    (h1 : ¬ adf.pvalAutolagAIC pw ≤ 1 / 20)
    (h2 : ¬ adf.pval (diff_dropna pw) ≤ 1 / 20) :
    stationarityCheck adf pw = ⟨2, diff_dropna pw⟩ := by
  unfold stationarityCheck
  rw [if_neg h1, if_neg h2]

/-- The p-value of the always-non-stationary oracle exceeds the 0.05
threshold on every series. -/
theorem adfAlwaysNonStationary_not_le (xs : List Int) :
    ¬ adfAlwaysNonStationary.pvalAutolagAIC xs ≤ 1 / 20 ∧
    ¬ adfAlwaysNonStationary.pval xs ≤ 1 / 20 := by
  constructor <;> norm_num [adfAlwaysNonStationary]

/-- The p-value of the always-stationary oracle is below the 0.05
threshold on every series. -/
theorem adfAlwaysStationary_le (xs : List Int) :
    adfAlwaysStationary.pvalAutolagAIC xs ≤ 1 / 20 ∧
    adfAlwaysStationary.pval xs ≤ 1 / 20 := by
  constructor <;> norm_num [adfAlwaysStationary]

/-! ### Theorems for the claims -/

/-- C1: for every weekly patronage series with at least 5 entries, the
model-fitting stage fits an ARIMA model of fixed order (1, 1, 1) on the
training slice holding all weekly counts except the last 4. -/
theorem fit_is_arima_111_on_all_but_last_four (pw : List Int)
    (h : 5 ≤ pw.length) :
    (fitCall pw).order = (1, 1, 1) ∧
    (fitCall pw).endog ++ test_data pw = pw ∧
    (test_data pw).length = 4 ∧
    (fitCall pw).endog.length = pw.length - 4 := by
  refine ⟨rfl, ?_, ?_, ?_⟩
  · exact List.take_append_drop _ pw
  · simp only [test_data, List.length_drop]
    omega
  · simp only [fitCall, train_data, List.length_take]
    omega

/-- Witness for C1 at the concrete series [3, 1, 4, 1, 5]. -/
theorem fit_is_arima_111_on_all_but_last_four_witness :
    5 ≤ ([3, 1, 4, 1, 5] : List Int).length ∧
    ((fitCall [3, 1, 4, 1, 5]).order = (1, 1, 1) ∧
      (fitCall [3, 1, 4, 1, 5]).endog ++ test_data [3, 1, 4, 1, 5] =
        [3, 1, 4, 1, 5] ∧
      (test_data ([3, 1, 4, 1, 5] : List Int)).length = 4 ∧
      (fitCall [3, 1, 4, 1, 5]).endog.length =
        ([3, 1, 4, 1, 5] : List Int).length - 4) :=
  ⟨by decide, fit_is_arima_111_on_all_but_last_four [3, 1, 4, 1, 5] (by decide)⟩

/-- C5: for every series with at least 4 entries, the forecast stage
predicts exactly the 4 held-out weeks (the steps argument equals the length
of the test slice, which is 4) and the confidence intervals come from that
same forecast call. -/
theorem forecast_covers_heldout_four_weeks_with_ci (lib : ArimaLib)
    (pw : List Int) (h : 4 ≤ pw.length) :
    forecastSteps pw = (test_data pw).length ∧
    forecastSteps pw = 4 ∧
    (scriptForecast lib pw).predicted_mean =
      (lib.fitForecast (train_data pw) (1, 1, 1) 4).predicted_mean ∧
    (scriptForecast lib pw).conf_int =
      (lib.fitForecast (train_data pw) (1, 1, 1) 4).conf_int := by
  have hsteps : forecastSteps pw = 4 := by
    simp only [forecastSteps, test_data, List.length_drop]
    omega
  refine ⟨rfl, hsteps, ?_, ?_⟩ <;>
    simp only [scriptForecast, hsteps, arimaOrder]

/-- Witness for C5 at the concrete series [1, 2, 3, 4] with the zero
forecast oracle. -/
theorem forecast_covers_heldout_four_weeks_with_ci_witness :
    4 ≤ ([1, 2, 3, 4] : List Int).length ∧
    (forecastSteps [1, 2, 3, 4] = (test_data [1, 2, 3, 4]).length ∧
      forecastSteps [1, 2, 3, 4] = 4 ∧
      (scriptForecast zeroArima [1, 2, 3, 4]).predicted_mean =
        (zeroArima.fitForecast (train_data [1, 2, 3, 4]) (1, 1, 1) 4).predicted_mean ∧
      (scriptForecast zeroArima [1, 2, 3, 4]).conf_int =
        (zeroArima.fitForecast (train_data [1, 2, 3, 4]) (1, 1, 1) 4).conf_int) :=
  ⟨by decide, forecast_covers_heldout_four_weeks_with_ci zeroArima [1, 2, 3, 4] (by decide)⟩

/-- C8: the order handed to the ARIMA fit is (1, 1, 1) for every input, so
two runs whose stationarity stages choose different d values still fit with
identical orders. -/
theorem order_identical_across_differing_adf_runs (adf1 adf2 : ADF)
    (pw1 pw2 : List Int)
    (h : (stationarityCheck adf1 pw1).d ≠ (stationarityCheck adf2 pw2).d) :
    (fitCall pw1).order = (fitCall pw2).order ∧
    (fitCall pw1).order = (1, 1, 1) :=
  ⟨rfl, rfl⟩

/-- Witness for C8: oracles reporting p-value 0 and p-value 1 give the
stationarity stage d = 0 and d = 2, yet the orders coincide. -/
theorem order_identical_across_differing_adf_runs_witness :
    (stationarityCheck adfAlwaysStationary [0, 1, 3, 6]).d ≠
      (stationarityCheck adfAlwaysNonStationary [0, 1, 3, 6]).d ∧
    ((fitCall [0, 1, 3, 6]).order = (fitCall [0, 1, 3, 6]).order ∧
      (fitCall ([0, 1, 3, 6] : List Int)).order = (1, 1, 1)) := by
  have h : (stationarityCheck adfAlwaysStationary [0, 1, 3, 6]).d ≠
      (stationarityCheck adfAlwaysNonStationary [0, 1, 3, 6]).d := by
    rw [stationarityCheck_of_le _ _ (adfAlwaysStationary_le _).1,
      stationarityCheck_of_not_le _ _ (adfAlwaysNonStationary_not_le _).1
        (adfAlwaysNonStationary_not_le _).2]
    decide
  exact ⟨h,
    order_identical_across_differing_adf_runs adfAlwaysStationary
      adfAlwaysNonStationary [0, 1, 3, 6] [0, 1, 3, 6] h⟩

/-- C9: when both ADF p-values exceed 0.05, the series used for the ACF and
PACF parameter plots is exactly the first-order difference, even though d
is set to 2; no second difference is computed. -/
theorem acf_pacf_input_is_first_difference_only (adf : ADF) (pw : List Int)
    (h1 : ¬ adf.pvalAutolagAIC pw ≤ 1 / 20)
    (h2 : ¬ adf.pval (diff_dropna pw) ≤ 1 / 20) :
    acfPlotInput adf pw = diff_dropna pw ∧
    pacfPlotInput adf pw = diff_dropna pw ∧
    (stationarityCheck adf pw).d = 2 := by
  refine ⟨?_, ?_, ?_⟩
  · unfold acfPlotInput
    rw [stationarityCheck_of_not_le _ _ h1 h2]
  · unfold pacfPlotInput
    rw [stationarityCheck_of_not_le _ _ h1 h2]
  · rw [stationarityCheck_of_not_le _ _ h1 h2]

/-- Witness for C9 at the series [0, 1, 3, 6] under the always-non-stationary
oracle: the plot input is the first difference [1, 2, 3]. -/
theorem acf_pacf_input_is_first_difference_only_witness :
    ¬ adfAlwaysNonStationary.pvalAutolagAIC [0, 1, 3, 6] ≤ 1 / 20 ∧
    ¬ adfAlwaysNonStationary.pval (diff_dropna [0, 1, 3, 6]) ≤ 1 / 20 ∧
    (acfPlotInput adfAlwaysNonStationary [0, 1, 3, 6] =
        diff_dropna [0, 1, 3, 6] ∧
      pacfPlotInput adfAlwaysNonStationary [0, 1, 3, 6] =
        diff_dropna [0, 1, 3, 6] ∧
      (stationarityCheck adfAlwaysNonStationary [0, 1, 3, 6]).d = 2) :=
  ⟨(adfAlwaysNonStationary_not_le _).1, (adfAlwaysNonStationary_not_le _).2,
    acf_pacf_input_is_first_difference_only adfAlwaysNonStationary [0, 1, 3, 6]
      (adfAlwaysNonStationary_not_le _).1 (adfAlwaysNonStationary_not_le _).2⟩

/-- C4 counterexample: under the always-non-stationary oracle and the
series [0, 1, 3, 6], the stationarity stage keeps the first difference
[1, 2, 3] instead of the second difference [1, 1], refuting the claim that
second-order differencing is applied. -/
theorem stationarity_second_differencing_cex :
    ¬ SecondDifferencingApplied adfAlwaysNonStationary [0, 1, 3, 6] := by
  intro hcl
  have h := hcl (adfAlwaysNonStationary_not_le _).1
    (adfAlwaysNonStationary_not_le _).2
  rw [stationarityCheck_of_not_le _ _ (adfAlwaysNonStationary_not_le _).1
    (adfAlwaysNonStationary_not_le _).2] at h
  exact absurd h (by decide)

/-- C4 amended: the stationarity stage keeps the series with d = 0 when the
first ADF p-value is at most 0.05; otherwise it takes the first difference
with d = 1; when the differenced series also tests non-stationary it only
raises d to 2 (capped at two) while data_diff stays the first difference. -/
theorem stationarity_check_branches (adf : ADF) (pw : List Int) :
    (stationarityCheck adf pw).d ≤ 2 ∧
    (adf.pvalAutolagAIC pw ≤ 1 / 20 →
      stationarityCheck adf pw = ⟨0, pw⟩) ∧
    (¬ adf.pvalAutolagAIC pw ≤ 1 / 20 →
      adf.pval (diff_dropna pw) ≤ 1 / 20 →
      stationarityCheck adf pw = ⟨1, diff_dropna pw⟩) ∧
    (¬ adf.pvalAutolagAIC pw ≤ 1 / 20 →
      ¬ adf.pval (diff_dropna pw) ≤ 1 / 20 →
      stationarityCheck adf pw = ⟨2, diff_dropna pw⟩) := by
  refine ⟨?_, stationarityCheck_of_le adf pw,
    stationarityCheck_of_diff_le adf pw, stationarityCheck_of_not_le adf pw⟩
  by_cases h1 : adf.pvalAutolagAIC pw ≤ 1 / 20
  · rw [stationarityCheck_of_le _ _ h1]
    exact Nat.zero_le 2
  · by_cases h2 : adf.pval (diff_dropna pw) ≤ 1 / 20
    · rw [stationarityCheck_of_diff_le _ _ h1 h2]
      exact one_le_two
    · rw [stationarityCheck_of_not_le _ _ h1 h2]

/-- Witness for the amended C4 on the non-stationary branch at the series
[0, 1, 3, 6]. -/
theorem stationarity_check_branches_witness :
    ¬ adfAlwaysNonStationary.pvalAutolagAIC [0, 1, 3, 6] ≤ 1 / 20 ∧
    ¬ adfAlwaysNonStationary.pval (diff_dropna [0, 1, 3, 6]) ≤ 1 / 20 ∧
    stationarityCheck adfAlwaysNonStationary [0, 1, 3, 6] =
      ⟨2, diff_dropna [0, 1, 3, 6]⟩ :=
  ⟨(adfAlwaysNonStationary_not_le _).1, (adfAlwaysNonStationary_not_le _).2,
    (stationarity_check_branches adfAlwaysNonStationary [0, 1, 3, 6]).2.2.2
      (adfAlwaysNonStationary_not_le _).1 (adfAlwaysNonStationary_not_le _).2⟩

/-- C10: for every series with fewer than 4 entries, the split makes the
training slice empty and the test slice the whole series, so the model is
fitted on an empty series and the forecast horizon is the series length,
not 4. -/
theorem short_series_split_degenerates (pw : List Int) (h : pw.length < 4) :
    train_data pw = [] ∧
    test_data pw = pw ∧
    (fitCall pw).endog = [] ∧
    forecastSteps pw = pw.length ∧
    forecastSteps pw ≠ 4 := by
  have h0 : pw.length - 4 = 0 := by omega
  refine ⟨?_, ?_, ?_, ?_, ?_⟩ <;>
    simp [train_data, test_data, fitCall, forecastSteps, h0]
  omega

/-- C3: the aggregation stage yields the weekly counts as a sequence
indexed by the distinct ISO weeks of the log in ascending order, entry w
holding the number of distinct CustomerID values among the rows of
week w. -/
theorem weekly_aggregation_sorted_distinct_counts {α : Type}
    (isoWeek : Date → Nat) (rows : List (Row α)) :
    List.Sorted (· < ·) (groupKeys (weekColumn isoWeek rows)) ∧
    (∀ w : Nat, w ∈ groupKeys (weekColumn isoWeek rows) ↔
      ∃ r ∈ rows, isoWeek r.invoiceDate = w) ∧
    patronage_weekly isoWeek rows =
      (groupKeys (weekColumn isoWeek rows)).map
        (fun w => (((rows.filter
          (fun r => isoWeek r.invoiceDate == w)).map
            Row.customerId).toFinset.card : Int)) := by
  refine ⟨?_, ?_, ?_⟩
  · exact List.Sorted.lt_of_le
      (List.Pairwise.sublist (List.dedup_sublist _)
        (List.sorted_insertionSort _ _))
      (List.nodup_dedup _)
  · intro w
    simp [groupKeys, weekColumn, List.mem_dedup, List.mem_map]
  · have hgv : ∀ w : Nat, groupValues (weekColumn isoWeek rows) w =
        (rows.filter (fun r => isoWeek r.invoiceDate == w)).map
          Row.customerId := by
      intro w
      unfold groupValues weekColumn
      rw [List.filter_map, List.map_map]
      rfl
    have hcount : (fun w => (nunique (groupValues (weekColumn isoWeek rows) w) : Int)) =
        (fun w => (((rows.filter (fun r => isoWeek r.invoiceDate == w)).map
          Row.customerId).toFinset.card : Int)) := by
      funext w
      rw [hgv w, nunique, List.card_toFinset]
    unfold patronage_weekly
    rw [hcount]

/-- C7: the numeric pipeline results are determined by the InvoiceDate and
CustomerID columns alone: two loaded tables agreeing on those columns give
identical weekly series, forecasts, and MAPE, whatever their other columns
hold. -/
theorem numeric_outputs_depend_only_on_two_columns {α β : Type}
    (isoWeek : Date → Nat) (lib : ArimaLib)
    (rows1 : List (Row α)) (rows2 : List (Row β))
    (h : rows1.map proj = rows2.map proj) :
    patronage_weekly isoWeek rows1 = patronage_weekly isoWeek rows2 ∧
    forecast_values lib (patronage_weekly isoWeek rows1) =
      forecast_values lib (patronage_weekly isoWeek rows2) ∧
    mapeOutput lib (patronage_weekly isoWeek rows1) =
      mapeOutput lib (patronage_weekly isoWeek rows2) := by
  have e1 : weekColumn isoWeek rows1 =
      (rows1.map proj).map (fun p => (isoWeek p.1, p.2)) := by
    rw [List.map_map]
    rfl
  have e2 : weekColumn isoWeek rows2 =
      (rows2.map proj).map (fun p => (isoWeek p.1, p.2)) := by
    rw [List.map_map]
    rfl
  have hw : weekColumn isoWeek rows1 = weekColumn isoWeek rows2 := by
    rw [e1, e2, h]
  have hpw : patronage_weekly isoWeek rows1 = patronage_weekly isoWeek rows2 := by
    unfold patronage_weekly
    rw [hw]
  exact ⟨hpw, by rw [hpw], by rw [hpw]⟩

/-- Witness for C7: two one-row tables whose extra columns differ in value
and even in type still produce identical numeric outputs. -/
theorem numeric_outputs_depend_only_on_two_columns_witness :
    ([⟨1, 7, 0⟩] : List (Row Nat)).map proj =
      ([⟨1, 7, true⟩] : List (Row Bool)).map proj ∧
    (patronage_weekly (fun d => d) ([⟨1, 7, 0⟩] : List (Row Nat)) =
        patronage_weekly (fun d => d) ([⟨1, 7, true⟩] : List (Row Bool)) ∧
      forecast_values zeroArima
          (patronage_weekly (fun d => d) ([⟨1, 7, 0⟩] : List (Row Nat))) =
        forecast_values zeroArima
          (patronage_weekly (fun d => d) ([⟨1, 7, true⟩] : List (Row Bool))) ∧
      mapeOutput zeroArima
          (patronage_weekly (fun d => d) ([⟨1, 7, 0⟩] : List (Row Nat))) =
        mapeOutput zeroArima
          (patronage_weekly (fun d => d) ([⟨1, 7, true⟩] : List (Row Bool)))) :=
  ⟨rfl, numeric_outputs_depend_only_on_two_columns (fun d => d) zeroArima
    [⟨1, 7, 0⟩] [⟨1, 7, true⟩] rfl⟩

/-- C6: on the fully successful path the script saves exactly the four
plot files (ACF, PACF, diagnostics, forecast-vs-actual) and prints exactly
one MAPE value, the mean absolute percentage error between the held-out
weekly counts and the forecast values. -/
theorem success_path_four_plots_one_mape {α : Type} (isoWeek : Date → Nat)
    (lib : ArimaLib) (rows : List (Row α)) :
    ((scriptEvents isoWeek lib rows).filter Event.isSavefig).length = 4 ∧
    (scriptEvents isoWeek lib rows).filter Event.isSavefig =
      [Event.savefig "../figures/customer-patronage-forecast/cpf-acf-parameter-plot.jpg",
       Event.savefig "../figures/customer-patronage-forecast/cpf-pacf-parameter-plot.jpg",
       Event.savefig "../figures/customer-patronage-forecast/cpf-diagnostic-plot.jpg",
       Event.savefig "../figures/customer-patronage-forecast/customer-patronage-forecast.jpg"] ∧
    (scriptEvents isoWeek lib rows).filter (fun e => !(Event.isSavefig e)) =
      [Event.printMape (mean_absolute_percentage_error
        ((test_data (patronage_weekly isoWeek rows)).map (fun z => (z : ℚ)))
        (forecast_values lib (patronage_weekly isoWeek rows)))] :=
  ⟨rfl, rfl, rfl⟩

/-- Witness for C10 at the two-entry series [7, 8]. -/
theorem short_series_split_degenerates_witness :
    ([7, 8] : List Int).length < 4 ∧
    (train_data [7, 8] = [] ∧
      test_data [7, 8] = [7, 8] ∧
      (fitCall [7, 8]).endog = [] ∧
      forecastSteps [7, 8] = ([7, 8] : List Int).length ∧
      forecastSteps [7, 8] ≠ 4) :=
  ⟨by decide, short_series_split_degenerates [7, 8] (by decide)⟩

/-- C2 counterexample: on the run where only the ARIMA fit raises, the
exception is caught and logged, yet the forecast stage still executes, so
the remaining stages are not skipped. -/
theorem error_policy_cex : ¬ CatchLogSkipEverywhere fitOnlyRaises := by
  intro hcl
  have h := (hcl Stage.fit (by decide) (by decide)).2 Stage.forecast (by decide)
  exact absurd h (by decide)

/-- C2 amended: every stage logs each exception its handler catches; the
load handler catches only the three pandas errors it names; failures of the
load, week-extraction, grouping and stationarity stages (the ones that set
df to None) skip every remaining stage, while failures of every later
stage are caught and logged but leave all remaining stages running; there
are no retries and no recovery. -/
theorem error_policy_catch_log_no_skip (r : Raises) (s t : Stage)
    (hst : s.idx < t.idx) (hs : attempted r s = true)
    (hraise : stageRaises r s = true) :
    (caughtByHandler r s = true → logged r s = true) ∧
    (caughtByHandler r s = false → logged r s = false ∧ s = Stage.load) ∧
    (setsDfNone s = true → attempted r t = false) ∧
    (setsDfNone s = false → attempted r t = true) := by
  rcases r with ⟨lo, f⟩
  cases lo <;> cases s <;> cases t <;>
    simp_all [attempted, stageRaises, caughtByHandler, logged, setsDfNone,
      Stage.idx]

/-- Witness for the amended C2: on the run where only the grouping stage
raises, the exception is logged and the fit stage is skipped. -/
theorem error_policy_catch_log_no_skip_witness :
    Stage.grouping.idx < Stage.fit.idx ∧
    attempted groupingOnlyRaises Stage.grouping = true ∧
    stageRaises groupingOnlyRaises Stage.grouping = true ∧
    ((caughtByHandler groupingOnlyRaises Stage.grouping = true →
        logged groupingOnlyRaises Stage.grouping = true) ∧
      (caughtByHandler groupingOnlyRaises Stage.grouping = false →
        logged groupingOnlyRaises Stage.grouping = false ∧
          Stage.grouping = Stage.load) ∧
      (setsDfNone Stage.grouping = true →
        attempted groupingOnlyRaises Stage.fit = false) ∧
      (setsDfNone Stage.grouping = false →
        attempted groupingOnlyRaises Stage.fit = true)) :=
  ⟨by decide, by decide, by decide,
    error_policy_catch_log_no_skip groupingOnlyRaises Stage.grouping Stage.fit
      (by decide) (by decide) (by decide)⟩

end CustomerPatronageForecast
